import Mathlib

/-!
Verification development for the pyseext UI-automation library.

The Python sources are shallowly embedded: each helper method becomes a Lean
function that returns the list of externally visible operations it performs
(remote script calls, simulated input events, waits) together with the
exception it raises, if any.  Timing constants (sleep durations, poll
frequencies in seconds) are represented as natural numbers of milliseconds;
they never influence control flow beyond truthiness.
-/

namespace Pyseext

/-- A Python value as passed to the helpers: `None`, a string, an integer
(numeric values in the sources are ints in every scenario modelled here),
a boolean, or a dict with string keys. -/
inductive PyVal where
  | vNone : PyVal
  | vStr (s : String) : PyVal
  | vNum (n : Int) : PyVal
  | vBool (b : Bool) : PyVal
  | vDict (entries : List (String × PyVal)) : PyVal

/-- Python truthiness of a value (`if value:`). -/
def pyTruthy : PyVal → Bool
  | .vNone => false
  | .vStr s => !(s == "")
  | .vNum n => !(n == 0)
  | .vBool b => b
  | .vDict d => !d.isEmpty

/-- Embeds `isinstance(value, dict)`. -/
def isDict : PyVal → Bool
  | .vDict _ => true
  | _ => false

/-- Embeds `isinstance(value, str)`. -/
def isStr : PyVal → Bool
  | .vStr _ => true
  | _ => false

/-- A scalar in the sense of the spec: a string, number or boolean. -/
def isScalar : PyVal → Bool
  | .vStr _ => true
  | .vNum _ => true
  | .vBool _ => true
  | _ => false

/-- Python truthiness of an optional string (`if field_xtype:` where the
value is a string or `None`). -/
def pyTruthyOptStr : Option String → Bool
  | none => false
  | some s => !(s == "")

/-- Python `str(value)`.  Strings are unchanged, ints render in decimal,
booleans render as `True` and `False`, `None` renders as `None`; a dict
renders with its key count (the helpers never type a dict, so only the
scalar cases are ever exercised by the properties below). -/
def pyStr : PyVal → String
  | .vNone => "None"
  | .vStr s => s
  | .vNum n => toString n
  | .vBool b => if b then "True" else "False"
  | .vDict d => "dict of " ++ toString d.length ++ " entries"

/-- Modelled from the spec: `pyseext.core.Core.try_get_object_member` is not
under src/ (only its callers are).  Per the Value Specification data
model of the spec, a structured value spec is a dict whose members are looked up by name;
the function returns the named member when the value is a dict containing it,
and the supplied default otherwise (the legacy twin
`FormHelper.get_field_config_member`, which is in the sources, behaves the
same way). -/
def try_get_object_member (value : PyVal) (member : String) (dflt : PyVal) : PyVal :=
  match value with
  | .vDict d =>
    match d.lookup member with
    | some v => v
    | none => dflt
  | _ => dflt

/-- Python `xtype.endswith(suffix)`, computed on the character lists. -/
def pyEndsWith (s suffix : String) : Bool :=
  List.isSuffixOf suffix.toList s.toList

end Pyseext

namespace Pyseext.StoreM

/-- One externally visible store operation issued by `StoreHelper`. -/
inductive STAction where
  | reset (cq : String) : STAction
  | trigger (cq : String) : STAction
  | waitLoaded (cq : String) : STAction

/-- Embeds `StoreHelper.reset_store_load_count`: executes the resetStoreLoadCount
remote script on the store holder. -/
def reset_store_load_count (store_holder_cq : String) : List STAction :=
  [.reset store_holder_cq]

/-- Embeds `StoreHelper.trigger_reload`: executes the reload remote script. -/
def trigger_reload (store_holder_cq : String) : List STAction :=
  [.trigger store_holder_cq]

/-- Embeds `StoreHelper.wait_for_store_loaded`: executes the asynchronous
waitForStoreLoaded remote script and blocks until it resolves. -/
def wait_for_store_loaded (store_holder_cq : String) : List STAction :=
  [.waitLoaded store_holder_cq]

/-- Embeds `StoreHelper.trigger_reload_and_wait`: calls `reset_store_load_count`,
then `trigger_reload`, then `wait_for_store_loaded`, in that order. -/
def trigger_reload_and_wait (store_holder_cq : String) : List STAction :=
  reset_store_load_count store_holder_cq ++
    trigger_reload store_holder_cq ++
    wait_for_store_loaded store_holder_cq

/-- The state of an Ext data store as seen through the helpers: its load
counter, its autoLoad configuration, and whether a fetch is in flight. -/
structure Store where
  loadCount : Nat
  autoLoad : Bool
  inFlight : Bool

/-- Modelled from the spec: the client-side
`PySeExt.StoreHelper.resetStoreLoadCount` script is not under src/ (only the
Python template naming it is).  Per the spec and the Python docstring, it
sets the counter to the zero-sentinel, and is a documented no-op when the
store is configured to auto-load. -/
def resetStoreLoadCountJS (s : Store) : Store :=
  if s.autoLoad then s else { s with loadCount := 0 }

/-- Modelled from the spec: a completed fetch increments the load counter
exactly once. -/
def completeLoadJS (s : Store) : Store :=
  { s with loadCount := s.loadCount + 1 }

/-- Modelled from the spec: a store reports loaded iff its counter is above
the zero-sentinel. -/
def isLoadedJS (s : Store) : Bool :=
  decide (0 < s.loadCount)

/-- Modelled from the spec: effect of one store operation on the store.
A trigger begins an asynchronous fetch; the wait returns once the pending
fetch has completed and incremented the counter. -/
def applyStoreAction (s : Store) : STAction → Store
  | .reset _ => resetStoreLoadCountJS s
  | .trigger _ => { s with inFlight := true }
  | .waitLoaded _ => if s.inFlight then completeLoadJS { s with inFlight := false } else s

/-- Runs a sequence of store operations against a store. -/
def runStore (s : Store) (tr : List STAction) : Store :=
  tr.foldl applyStoreAction s

end Pyseext.StoreM

namespace Pyseext.FieldM

open Pyseext

/-- One externally visible operation performed while setting a field value:
remote script calls, input-event emissions and waits, in the order the
Python code performs them.  Pauses of random small duration between key
presses are recorded as `pause`. -/
inductive FAction where
  | resetLoadCount (cq : String) : FAction
  | findInput (form_cq name : String) : FAction
  | clearElement : FAction
  | moveClick : FAction
  | sendKeys (text : String) : FAction
  | pause : FAction
  | sendTab : FAction
  | waitStoreLoaded (cq : String) : FAction
  | waitNoAjax (recheck : Nat) : FAction
  | selectCombo (form_cq name : String) (data : PyVal) : FAction
  | setValueDirectly (form_cq name : String) (value : PyVal) : FAction

/-- Embeds `InputHelper.type`: when realistic typing is enabled and the driver is
local, each character is sent as its own key event with a short pause after
it; otherwise the whole string is sent in one `send_keys` call. -/
def inputType (driverRemote : Bool) (text : String) (disableRealistic : Bool) : List FAction :=
  if !disableRealistic && !driverRemote then
    text.toList.flatMap (fun c => [.sendKeys (String.singleton c), .pause])
  else
    [.sendKeys text]

/-- Embeds `InputHelper.type_tab`: sends a TAB key, pausing afterwards when the
driver is local. -/
def type_tab (driverRemote : Bool) : List FAction :=
  [.sendTab] ++ (if !driverRemote then [.pause] else [])

/-- Python str conversion applied after the None-to-empty-string guard at the
top of `InputHelper.type_into_element`. -/
def pyStrOrEmpty : PyVal → String
  | .vNone => ""
  | v => pyStr v

/-- Embeds `InputHelper.type_into_element`: coerces the value to text, optionally
clears the element, moves to and clicks it, types the text, then optionally
pauses and tabs off. -/
def type_into_element (driverRemote : Bool) (text : PyVal) (delay : Option Nat)
    (tabOff : Bool) (disableRealistic : Bool) (clearFirst : Bool) : List FAction :=
  let t := pyStrOrEmpty text
  (if clearFirst then [.clearElement] else []) ++
    [.moveClick] ++
    inputType driverRemote t disableRealistic ++
    (match delay with
     | some _ => [.pause]
     | none => []) ++
    (if tabOff then type_tab driverRemote else [])

/-- The characters a single action delivers to the UI as keystrokes.
Selenium sends each character of a `send_keys` string as its own key
event. -/
def keyChars : FAction → List Char
  | .sendKeys s => s.toList
  | _ => []

/-- All characters a trace delivers to the UI as keystrokes, in order. -/
def keystrokeChars (tr : List FAction) : List Char :=
  tr.flatMap keyChars

/-- Whether an action is the direct set-value remote call. -/
def isDirectSet : FAction → Bool
  | .setValueDirectly _ _ _ => true
  | _ => false

/-- Whether an action is a simulated keystroke or typing action (a key
event, a tab, a click-to-focus or a clear). -/
def isTypingAction : FAction → Bool
  | .sendKeys _ => true
  | .sendTab => true
  | .moveClick => true
  | .clearElement => true
  | _ => false

/-- The results of the remote lookups `set_field_value` consults for one
field: its xtype (`None` when the field is not found), the class-membership
tests, whether the combobox filters remotely, the result of the
selectComboBoxValue script, and whether the webdriver is remote. -/
structure FieldEnv where
  fieldXType : Option String
  isCombobox : Bool
  isRemoteCombo : Bool
  isTextField : Bool
  isCheckbox : Bool
  isRadio : Bool
  selectResult : Bool
  driverRemote : Bool

/-- The exceptions `FieldHelper` can raise while setting a value. -/
inductive Err where
  | fieldNotFound (form_cq name : String) : Err
  | unsupportedXType (form_cq name xtype : String) : Err
  | recordNotFound (form_cq name : String) (data : PyVal) : Err
  | argumentMissing (argName member : String) : Err

/-- Embeds `FieldHelper.get_field_component_query`: builds the component query for
a field on a form. -/
def get_field_component_query (form_cq name : String) : String :=
  form_cq ++ " component[name=\"" ++ name ++ "\"]"

/-- Embeds `FieldHelper.select_combobox_value`: waits for the store of the combobox to
be loaded, then runs the selectComboBoxValue script, whose boolean result
says whether a matching record was found and applied. -/
def select_combobox_value (env : FieldEnv) (form_cq name : String) (data : PyVal) :
    List FAction × Bool :=
  ([.waitStoreLoaded (get_field_component_query form_cq name),
    .selectCombo form_cq name data], env.selectResult)

/-- Embeds `FieldHelper.set_field_value_directly`: executes the setFieldValue
script with the (string-quoted / bool-lowercased) value. -/
def set_field_value_directly (form_cq name : String) (value : PyVal) : List FAction :=
  [.setValueDirectly form_cq name value]

/-- Embeds `FieldHelper.set_field_value`, translated branch for branch from the
source.  Returns the trace of operations performed, in order, and the
exception raised (raising happens after every operation in the trace). -/
def set_field_value (env : FieldEnv) (form_cq name : String) (value : PyVal) :
    List FAction × Option Err :=
  if pyTruthyOptStr env.fieldXType then
    let xt := env.fieldXType.getD ""
    let field_value := try_get_object_member value "value" value
    if env.isCombobox then
      if env.isRemoteCombo then
        if !isDict field_value then
          let combobox_cq := get_field_component_query form_cq name
          ([.resetLoadCount combobox_cq, .findInput form_cq name] ++
             type_into_element env.driverRemote field_value none false true true ++
             [.waitStoreLoaded combobox_cq, .waitNoAjax 1] ++
             type_tab env.driverRemote, none)
        else
          let filter_text := try_get_object_member value "filterText" .vNone
          if !pyTruthy filter_text then
            ([], some (.argumentMissing "value" "filterText"))
          else
            let combobox_cq := get_field_component_query form_cq name
            let sel := select_combobox_value env form_cq name field_value
            ([.resetLoadCount combobox_cq, .findInput form_cq name] ++
               type_into_element env.driverRemote filter_text none false true true ++
               [.waitStoreLoaded combobox_cq, .waitNoAjax 1] ++
               sel.1,
             if !sel.2 then some (.recordNotFound form_cq name field_value) else none)
      else
        if !isDict field_value then
          ([.findInput form_cq name] ++
             type_into_element env.driverRemote field_value none false false true ++
             type_tab env.driverRemote, none)
        else
          let sel := select_combobox_value env form_cq name field_value
          (sel.1,
           if !sel.2 then some (.recordNotFound form_cq name field_value) else none)
    else if env.isTextField then
      ([.findInput form_cq name] ++
         type_into_element env.driverRemote field_value none false false true, none)
    else if pyEndsWith xt "radiogroup" || env.isCheckbox || env.isRadio then
      (set_field_value_directly form_cq name field_value, none)
    else
      ([], some (.unsupportedXType form_cq name xt))
  else
    ([], some (.fieldNotFound form_cq name))

end Pyseext.FieldM

namespace Pyseext.TreeM

open Pyseext

/-- One externally visible tree operation performed by `TreeHelper`. -/
inductive TreeAction where
  | waitNotLoading : TreeAction
  | lookupIcon : TreeAction
  | lookupText : TreeAction
  | lookupExpander : TreeAction
  | lookupElement : TreeAction
  | reloadNode : TreeAction

/-- Embeds `TreeHelper.TreeNotLoadingExpectation.__call__`: observes the
loading flag of the tree; when it is false and a recheck time is configured (truthy,
i.e. non-zero), sleeps for that grace delay and observes the flag once
more; the expectation is satisfied iff the last observation is false.
`loading t` is the flag at the t-th observation; `recheck` is the
configured recheck time in milliseconds (0 models `None`/`0.0`, which are
falsy). -/
def treeNotLoadingExpectation (recheck : Nat) (loading : Nat → Bool) (obs : Nat) : Bool :=
  let isLoading := loading obs
  if !isLoading && decide (recheck ≠ 0) then !(loading (obs + 1))
  else !isLoading

/-- The recheck time (in milliseconds) that
`TreeHelper.wait_until_tree_not_loading` passes to the expectation by
default: 0.2 seconds, which is truthy. -/
def defaultRecheckMs : Nat := 200

/-- Embeds `TreeHelper.wait_until_tree_not_loading` as a trace element: blocks
until `treeNotLoadingExpectation` holds for the tree. -/
def wait_until_tree_not_loading : List TreeAction :=
  [.waitNotLoading]

/-- Embeds `TreeHelper.get_node_icon_element`: waits until the tree is not
loading, then runs the getNodeIcon lookup script. -/
def get_node_icon_element : List TreeAction :=
  wait_until_tree_not_loading ++ [.lookupIcon]

/-- Embeds `TreeHelper.get_node_text_element`: waits until the tree is not
loading, then runs the getNodeText lookup script. -/
def get_node_text_element : List TreeAction :=
  wait_until_tree_not_loading ++ [.lookupText]

/-- Embeds `TreeHelper.get_node_expander_element`: waits until the tree is not
loading, then runs the getNodeExpander lookup script. -/
def get_node_expander_element : List TreeAction :=
  wait_until_tree_not_loading ++ [.lookupExpander]

/-- Embeds `TreeHelper.get_node_element`: waits until the tree is not loading,
then runs the getNodeElementByData lookup script. -/
def get_node_element : List TreeAction :=
  wait_until_tree_not_loading ++ [.lookupElement]

/-- Embeds `TreeHelper.reload_node`: waits until the tree is not loading, then
runs the reloadNode script on the node. -/
def reload_node : List TreeAction :=
  wait_until_tree_not_loading ++ [.reloadNode]

/-- The environment a node wait runs against: whether the own
lookup of the tree resolves the node key to a live handle at the t-th poll tick. -/
structure TreeEnv where
  nodeFound : Nat → Bool

/-- Embeds `TreeHelper.NodeFoundExpectation.__call__` at poll tick `t`: looks the
node up via `get_node_icon_element`; when found, the tick is satisfied;
otherwise, as a side effect of the same tick, the parent node is reloaded
via `reload_node` and the tick reports unsatisfied.  Returns whether the
tick was satisfied together with the operations it performed. -/
def nodeFoundExpectationCall (env : TreeEnv) (t : Nat) : Bool × List TreeAction :=
  if env.nodeFound t then (true, get_node_icon_element)
  else (false, get_node_icon_element ++ reload_node)

/-- The `WebDriverWait.until` loop of Selenium, on a discrete clock: evaluate
the predicate at tick `t`; on success return; otherwise sleep for
`poll` and stop once the deadline has passed (`rem` is the time left until
the deadline).  Returns the number of predicate evaluations performed and
whether the wait succeeded. -/
def untilLoop (pred : Nat → Bool) (poll : Nat) (hp : 0 < poll) (t rem : Nat) : Nat × Bool :=
  if pred t then (t + 1, true)
  else if _h : rem < poll then (t + 1, false)
  else untilLoop pred poll hp (t + 1) (rem - poll)
termination_by rem
decreasing_by omega

/-- Embeds `TreeHelper.wait_for_tree_node`: runs `WebDriverWait(...).until` on a
`NodeFoundExpectation` with the given timeout and poll interval (both in
milliseconds). -/
def wait_for_tree_node (env : TreeEnv) (timeout poll : Nat) (hp : 0 < poll) : Nat × Bool :=
  untilLoop (fun t => (nodeFoundExpectationCall env t).1) poll hp 0 timeout

/-- The number of parent reloads the t-th poll tick triggers. -/
def tickReloads (env : TreeEnv) (t : Nat) : Nat :=
  (nodeFoundExpectationCall env t).2.countP (fun a =>
    match a with
    | .reloadNode => true
    | _ => false)

/-- The number of parent reloads triggered over the first `n` poll ticks. -/
def totalReloads (env : TreeEnv) (n : Nat) : Nat :=
  ((List.range n).map (tickReloads env)).sum

end Pyseext.TreeM

namespace Pyseext.Legacy

open Pyseext

/-- One externally visible operation performed by the legacy
`FormHelper.set_form_values` loop body. -/
inductive LAction where
  | typeInto (text : String) : LAction
  | setCheckbox (value : PyVal) : LAction
  | setNumericScript (value : PyVal) : LAction

/-- The exceptions the legacy `FormHelper` path can raise. -/
inductive LErr where
  | fieldNotFound (form_cq name : String) : LErr
  | unsupportedXType (form_cq name xtype : String) : LErr
  | attributeError (attrName : String) : LErr

/-- The attribute names resolvable on a legacy `FormHelper` instance: the
class-level script templates (including those of the base class), the methods,
and the instance attributes set in `__init__`.  The numeric-value script
template is defined only under the name
`_SET_FIELD_NUMERIC_VALUE_TEMPLATE`. -/
def formHelperAttrs : List String :=
  ["_FIND_FIELD_INPUT_ELEMENT_TEMPLATE",
   "_GET_FIELD_XTYPE_TEMPLATE",
   "_SET_CHECKBOX_VALUE_TEMPLATE",
   "_SET_FIELD_NUMERIC_VALUE_TEMPLATE",
   "_SCRIPT_LOADED_TEST_TEMPLATE",
   "_SCRIPT_LOAD_TIMEOUT",
   "_driver",
   "_button_helper",
   "_action_chains",
   "find_field_input_element",
   "get_field_xtype",
   "set_form_values",
   "submit_by_button",
   "set_checkbox_value",
   "set_field_numeric_value",
   "type_into_element"]

/-- Embeds `FormHelper.set_field_numeric_value`: formats and executes the script
read from `self._SET_FIELD_NUMERIC_VALUE` — an attribute that must resolve
on the instance before the script can run; an unresolvable attribute raises
`AttributeError` and nothing is executed. -/
def set_field_numeric_value (_form_cq _name : String) (value : PyVal) :
    List LAction × Option LErr :=
  if formHelperAttrs.contains "_SET_FIELD_NUMERIC_VALUE" then
    ([.setNumericScript value], none)
  else
    ([], some (.attributeError "_SET_FIELD_NUMERIC_VALUE"))

/-- The inner `get_field_config_member` of `FormHelper.set_form_values`: the
named member of a dict value, or the default. -/
def get_field_config_member (value : PyVal) (member : String) (dflt : PyVal) : PyVal :=
  match value with
  | .vDict d =>
    match d.lookup member with
    | some v => v
    | none => dflt
  | _ => dflt

/-- The loop body of the legacy `FormHelper.set_form_values` for a single
field, translated branch for branch: `xtype` is the result of the
getFieldXType script for the field. -/
def set_form_values_field (xtype : Option String) (form_cq name : String)
    (value_or_config : PyVal) : List LAction × Option LErr :=
  if pyTruthyOptStr xtype then
    let xt := xtype.getD ""
    let field_value := get_field_config_member value_or_config "value" value_or_config
    if pyEndsWith xt "textfield" || pyEndsWith xt "number" || pyEndsWith xt "datefield" ||
       ((pyEndsWith xt "combo" || pyEndsWith xt "combobox") && isStr field_value) then
      ([.typeInto (pyStr field_value)], none)
    else if pyEndsWith xt "checkbox" then
      ([.setCheckbox field_value], none)
    else if pyEndsWith xt "combo" || pyEndsWith xt "combobox" then
      set_field_numeric_value form_cq name field_value
    else
      ([], some (.unsupportedXType form_cq name xt))
  else
    ([], some (.fieldNotFound form_cq name))

end Pyseext.Legacy

namespace Pyseext

/-! Shared helper lemmas. -/

theorem pyEndsWith_iff (s suffix : String) :
    pyEndsWith s suffix = true ↔ suffix.toList <:+ s.toList := by
  simp [pyEndsWith]

theorem pyEndsWith_excl {xt : String} (a b : String) (ha : pyEndsWith xt a = true)
    (hab : ¬ (a.toList <:+ b.toList)) (hba : ¬ (b.toList <:+ a.toList)) :
    pyEndsWith xt b = false := by
  cases hb : pyEndsWith xt b
  · rfl
  · rw [pyEndsWith_iff] at ha hb
    rcases List.suffix_or_suffix_of_suffix ha hb with h | h
    · exact absurd h hab
    · exact absurd h hba

theorem ne_empty_of_pyEndsWith {xt suffix : String} (h : pyEndsWith xt suffix = true)
    (hs : suffix ≠ "") : xt ≠ "" := by
  intro hxt
  subst hxt
  rw [pyEndsWith_iff] at h
  have hlen := h.length_le
  simp at hlen
  exact hs (by cases suffix; simp_all [String.toList])

theorem try_get_object_member_of_not_dict {v : PyVal} (h : isDict v = false)
    (m : String) (d : PyVal) : try_get_object_member v m d = d := by
  cases v <;> simp_all [try_get_object_member, isDict]

theorem isDict_eq_false_of_isScalar {v : PyVal} (h : isScalar v = true) :
    isDict v = false := by
  cases v <;> simp_all [isScalar, isDict]

end Pyseext

namespace Pyseext.StoreM

/-- C6: `trigger_reload_and_wait` is exactly the sequential composition of
`reset_load_count`, `trigger_reload` and `wait_for_loaded`, in that order
and with no other store operation interleaved; moreover, run against any
store that is not configured to auto-load, the composed sequence leaves the
load counter at exactly one completed fresh load, so the store reports
loaded. -/
theorem spec_c6_trigger_reload_and_wait_seq :
    ∀ cq : String,
      trigger_reload_and_wait cq =
        reset_store_load_count cq ++ trigger_reload cq ++ wait_for_store_loaded cq ∧
      trigger_reload_and_wait cq =
        [STAction.reset cq, STAction.trigger cq, STAction.waitLoaded cq] ∧
      ∀ s : Store, s.autoLoad = false →
        (runStore s (trigger_reload_and_wait cq)).loadCount = 1 ∧
        isLoadedJS (runStore s (trigger_reload_and_wait cq)) = true := by
  intro cq
  refine ⟨rfl, rfl, ?_⟩
  intro s hs
  simp [runStore, trigger_reload_and_wait, reset_store_load_count, trigger_reload,
    wait_for_store_loaded, applyStoreAction, resetStoreLoadCountJS, hs,
    completeLoadJS, isLoadedJS]

/-- Witness for C6 at a concrete store and component query. -/
theorem spec_c6_witness :
    (runStore ⟨7, false, false⟩ (trigger_reload_and_wait "grid")).loadCount = 1 ∧
    trigger_reload_and_wait "grid" =
      [STAction.reset "grid", STAction.trigger "grid", STAction.waitLoaded "grid"] := by
  have h := spec_c6_trigger_reload_and_wait_seq "grid"
  exact ⟨(h.2.2 ⟨7, false, false⟩ rfl).1, h.2.1⟩

/-- C7: resetting the load count is idempotent — on a store that is not
configured to auto-load, a reset leaves the counter at the zero-sentinel
and a second reset with no intervening fetch changes nothing, the counter
staying at the sentinel after both calls; on a store that is configured to
auto-load, a reset is a no-op that leaves the store unchanged and raises
no error. -/
theorem spec_c7_reset_load_count_idempotent :
    ∀ s : Store,
      (s.autoLoad = false →
        (resetStoreLoadCountJS s).loadCount = 0 ∧
        resetStoreLoadCountJS (resetStoreLoadCountJS s) = resetStoreLoadCountJS s ∧
        (resetStoreLoadCountJS (resetStoreLoadCountJS s)).loadCount = 0) ∧
      (s.autoLoad = true → resetStoreLoadCountJS s = s) := by
  intro s
  constructor
  · intro hs
    simp [resetStoreLoadCountJS, hs]
  · intro hs
    simp [resetStoreLoadCountJS, hs]

/-- Witness for C7 at a concrete store. -/
theorem spec_c7_witness :
    (resetStoreLoadCountJS ⟨5, false, false⟩).loadCount = 0 ∧
    resetStoreLoadCountJS (resetStoreLoadCountJS ⟨5, false, false⟩) =
      resetStoreLoadCountJS ⟨5, false, false⟩ ∧
    resetStoreLoadCountJS ⟨3, true, false⟩ = ⟨3, true, false⟩ := by
  have h1 := (spec_c7_reset_load_count_idempotent ⟨5, false, false⟩).1 rfl
  have h2 := (spec_c7_reset_load_count_idempotent ⟨3, true, false⟩).2 rfl
  exact ⟨h1.1, h1.2.1, h2⟩

end Pyseext.StoreM

namespace Pyseext.Legacy

open Pyseext

/-- C10: on the legacy `FormHelper.set_form_values` path, a combobox field
(xtype ending in `combo` or `combobox`) with a non-string scalar value is
dispatched to `set_field_numeric_value`, which reads the attribute
`_SET_FIELD_NUMERIC_VALUE`; that attribute is never defined on the class
(the script template exists only under `_SET_FIELD_NUMERIC_VALUE_TEMPLATE`),
so the call always raises `AttributeError` and never executes the
assignment script. -/
theorem spec_c10_legacy_numeric_path_attribute_error :
    ∀ (xt form_cq name : String) (v : PyVal),
      (pyEndsWith xt "combo" || pyEndsWith xt "combobox") = true →
      isStr v = false → isDict v = false →
      set_form_values_field (some xt) form_cq name v =
        ([], some (LErr.attributeError "_SET_FIELD_NUMERIC_VALUE")) ∧
      formHelperAttrs.contains "_SET_FIELD_NUMERIC_VALUE" = false ∧
      formHelperAttrs.contains "_SET_FIELD_NUMERIC_VALUE_TEMPLATE" = true := by
  intro xt fq n v hcombo hstr hdict
  refine ⟨?_, by decide, by decide⟩
  have hfv : get_field_config_member v "value" v = v := by
    cases v <;> simp_all [get_field_config_member, isDict]
  rcases Bool.or_eq_true_iff.mp hcombo with hc | hc
  · have hne : xt ≠ "" := ne_empty_of_pyEndsWith hc (by decide)
    have htruthy : pyTruthyOptStr (some xt) = true := by
      simp [pyTruthyOptStr, hne]
    have htf : pyEndsWith xt "textfield" = false :=
      pyEndsWith_excl "combo" "textfield" hc (by decide) (by decide)
    have hnum : pyEndsWith xt "number" = false :=
      pyEndsWith_excl "combo" "number" hc (by decide) (by decide)
    have hdf : pyEndsWith xt "datefield" = false :=
      pyEndsWith_excl "combo" "datefield" hc (by decide) (by decide)
    have hcb : pyEndsWith xt "checkbox" = false :=
      pyEndsWith_excl "combo" "checkbox" hc (by decide) (by decide)
    simp [set_form_values_field, htruthy, htf, hnum, hdf, hcb, hc, hstr, hfv,
      set_field_numeric_value]
    decide
  · have hne : xt ≠ "" := ne_empty_of_pyEndsWith hc (by decide)
    have htruthy : pyTruthyOptStr (some xt) = true := by
      simp [pyTruthyOptStr, hne]
    have htf : pyEndsWith xt "textfield" = false :=
      pyEndsWith_excl "combobox" "textfield" hc (by decide) (by decide)
    have hnum : pyEndsWith xt "number" = false :=
      pyEndsWith_excl "combobox" "number" hc (by decide) (by decide)
    have hdf : pyEndsWith xt "datefield" = false :=
      pyEndsWith_excl "combobox" "datefield" hc (by decide) (by decide)
    have hcb : pyEndsWith xt "checkbox" = false :=
      pyEndsWith_excl "combobox" "checkbox" hc (by decide) (by decide)
    simp [set_form_values_field, htruthy, htf, hnum, hdf, hcb, hc, hstr, hfv,
      set_field_numeric_value]
    decide

/-- Witness for C10: a plain combobox receiving the number 42. -/
theorem spec_c10_witness :
    set_form_values_field (some "combobox") "myform" "animal" (PyVal.vNum 42) =
      ([], some (LErr.attributeError "_SET_FIELD_NUMERIC_VALUE")) := by
  exact (spec_c10_legacy_numeric_path_attribute_error "combobox" "myform" "animal"
    (PyVal.vNum 42) (by decide) rfl rfl).1

end Pyseext.Legacy

namespace Pyseext.TreeM

theorem untilLoop_const_false (pred : Nat → Bool) (poll : Nat) (hp : 0 < poll)
    (hfalse : ∀ u, pred u = false) :
    ∀ rem t, untilLoop pred poll hp t rem = (t + rem / poll + 1, false) := by
  intro rem
  induction rem using Nat.strong_induction_on with
  | _ rem ih =>
    intro t
    rw [untilLoop, hfalse t]
    by_cases h : rem < poll
    · simp [h, Nat.div_eq_of_lt h]
    · have hle : poll ≤ rem := Nat.le_of_not_lt h
      simp only [Bool.false_eq_true, if_false, h, dite_false]
      rw [ih (rem - poll) (by omega) (t + 1)]
      rw [Nat.div_eq_sub_div hp hle]
      simp only [Prod.mk.injEq, and_true]
      omega

theorem tickReloads_of_found {env : TreeEnv} {t : Nat} (h : env.nodeFound t = true) :
    tickReloads env t = 0 := by
  simp [tickReloads, nodeFoundExpectationCall, h, get_node_icon_element,
    wait_until_tree_not_loading, List.countP]
  rfl

theorem tickReloads_of_not_found {env : TreeEnv} {t : Nat} (h : env.nodeFound t = false) :
    tickReloads env t = 1 := by
  simp [tickReloads, nodeFoundExpectationCall, h, get_node_icon_element, reload_node,
    wait_until_tree_not_loading, List.countP, List.countP.go]

theorem totalReloads_of_never_found {env : TreeEnv} (h : ∀ t, env.nodeFound t = false) :
    ∀ n, totalReloads env n = n := by
  intro n
  induction n with
  | zero => rfl
  | succ n ih =>
    unfold totalReloads at ih ⊢
    rw [List.range_succ]
    simp only [List.map_append, List.sum_append, List.map_cons, List.map_nil,
      List.sum_cons, List.sum_nil]
    rw [ih, tickReloads_of_not_found (h n)]
    omega

/-- C8: on each poll tick of `wait_for_tree_node`, a node key that resolves
to a live handle satisfies the tick without triggering any reload, while an
unresolved key triggers exactly one reload of the parent node as a side
effect of the same tick and reports unsatisfied; consequently, with a node
key that never resolves, the wait times out after `timeout / poll + 1`
predicate evaluations — at least `timeout / poll - 1` ticks — and exactly
that many parent reloads have been triggered. -/
theorem spec_c8_wait_for_node_retry_protocol :
    ∀ (env : TreeEnv) (timeout poll : Nat) (hp : 0 < poll),
      (∀ t, env.nodeFound t = true →
        (nodeFoundExpectationCall env t).1 = true ∧ tickReloads env t = 0) ∧
      (∀ t, env.nodeFound t = false →
        (nodeFoundExpectationCall env t).1 = false ∧ tickReloads env t = 1) ∧
      ((∀ t, env.nodeFound t = false) →
        wait_for_tree_node env timeout poll hp = (timeout / poll + 1, false) ∧
        timeout / poll - 1 ≤ timeout / poll + 1 ∧
        totalReloads env (timeout / poll + 1) = timeout / poll + 1) := by
  intro env timeout poll hp
  refine ⟨?_, ?_, ?_⟩
  · intro t h
    exact ⟨by simp [nodeFoundExpectationCall, h], tickReloads_of_found h⟩
  · intro t h
    exact ⟨by simp [nodeFoundExpectationCall, h], tickReloads_of_not_found h⟩
  · intro hall
    refine ⟨?_, Nat.le_trans (Nat.sub_le _ _) (Nat.le_succ _),
      totalReloads_of_never_found hall _⟩
    unfold wait_for_tree_node
    have hfalse : ∀ u, (nodeFoundExpectationCall env u).1 = false := by
      intro u
      simp [nodeFoundExpectationCall, hall u]
    rw [untilLoop_const_false _ poll hp hfalse timeout 0]
    simp

/-- Witness for C8: a node that never appears, timeout 1000 ms and poll
interval 300 ms — four ticks and four parent reloads before timing out. -/
theorem spec_c8_witness :
    wait_for_tree_node ⟨fun _ => false⟩ 1000 300 (by decide) = (4, false) ∧
    totalReloads ⟨fun _ => false⟩ 4 = 4 := by
  have h := (spec_c8_wait_for_node_retry_protocol ⟨fun _ => false⟩ 1000 300 (by decide)).2.2
    (fun _ => rfl)
  exact ⟨h.1, h.2.2⟩

/-- C9: every tree node/element accessor (icon, text, expander, arbitrary
node element, and `reload_node`) performs the not-loading wait as its first
operation and only then issues its lookup or reload, so a lookup is never
issued while the tree reports loading; and the not-loading expectation, on
observing the loading flag false with a (truthy) recheck delay configured
— as `wait_until_tree_not_loading` always configures, its default being
0.2 s — waits the grace delay, rechecks once, and is satisfied iff the
flag is false at the first observation and still false after the
recheck. -/
theorem spec_c9_accessors_wait_until_not_loading :
    (get_node_icon_element.head? = some TreeAction.waitNotLoading ∧
      ∀ i, get_node_icon_element.get? i = some TreeAction.lookupIcon → 0 < i) ∧
    (get_node_text_element.head? = some TreeAction.waitNotLoading ∧
      ∀ i, get_node_text_element.get? i = some TreeAction.lookupText → 0 < i) ∧
    (get_node_expander_element.head? = some TreeAction.waitNotLoading ∧
      ∀ i, get_node_expander_element.get? i = some TreeAction.lookupExpander → 0 < i) ∧
    (get_node_element.head? = some TreeAction.waitNotLoading ∧
      ∀ i, get_node_element.get? i = some TreeAction.lookupElement → 0 < i) ∧
    (reload_node.head? = some TreeAction.waitNotLoading ∧
      ∀ i, reload_node.get? i = some TreeAction.reloadNode → 0 < i) ∧
    defaultRecheckMs ≠ 0 ∧
    (∀ (recheck : Nat) (loading : Nat → Bool) (obs : Nat), recheck ≠ 0 →
      (treeNotLoadingExpectation recheck loading obs = true ↔
        (loading obs = false ∧ loading (obs + 1) = false))) := by
  refine ⟨⟨rfl, ?_⟩, ⟨rfl, ?_⟩, ⟨rfl, ?_⟩, ⟨rfl, ?_⟩, ⟨rfl, ?_⟩, by decide, ?_⟩
  · intro i h
    match i with
    | 0 => simp [get_node_icon_element, wait_until_tree_not_loading] at h
    | _ + 1 => omega
  · intro i h
    match i with
    | 0 => simp [get_node_text_element, wait_until_tree_not_loading] at h
    | _ + 1 => omega
  · intro i h
    match i with
    | 0 => simp [get_node_expander_element, wait_until_tree_not_loading] at h
    | _ + 1 => omega
  · intro i h
    match i with
    | 0 => simp [get_node_element, wait_until_tree_not_loading] at h
    | _ + 1 => omega
  · intro i h
    match i with
    | 0 => simp [reload_node, wait_until_tree_not_loading] at h
    | _ + 1 => omega
  · intro recheck loading obs hr
    unfold treeNotLoadingExpectation
    cases h1 : loading obs
    · simp [h1, hr]
    · simp [h1]

/-- Witness for C9: with the flag reporting not-loading at both
observations, the expectation is satisfied at the default recheck delay. -/
theorem spec_c9_witness :
    treeNotLoadingExpectation defaultRecheckMs (fun _ => false) 0 = true := by
  exact (spec_c9_accessors_wait_until_not_loading.2.2.2.2.2.2 defaultRecheckMs
    (fun _ => false) 0 (by decide)).mpr ⟨rfl, rfl⟩

end Pyseext.TreeM

namespace Pyseext.FieldM

open Pyseext

theorem keystrokeChars_append (a b : List FAction) :
    keystrokeChars (a ++ b) = keystrokeChars a ++ keystrokeChars b := by
  simp [keystrokeChars]

theorem keystrokeChars_inputType (r : Bool) (t : String) (d : Bool) :
    keystrokeChars (inputType r t d) = t.toList := by
  unfold inputType
  split
  · generalize t.toList = l
    induction l with
    | nil => rfl
    | cons c tl ih =>
      simp only [List.flatMap_cons, keystrokeChars_append]
      rw [ih]
      rfl
  · simp [keystrokeChars, keyChars]

theorem countP_isDirectSet_flatPairs (l : List Char) :
    (l.flatMap (fun c => [FAction.sendKeys (String.singleton c), FAction.pause])).countP
      isDirectSet = 0 := by
  induction l with
  | nil => rfl
  | cons c tl ih =>
    simp only [List.flatMap_cons, List.countP_append, ih]
    rfl

theorem countP_isDirectSet_inputType (r : Bool) (t : String) (d : Bool) :
    (inputType r t d).countP isDirectSet = 0 := by
  unfold inputType
  split
  · exact countP_isDirectSet_flatPairs _
  · rfl

theorem countP_isDirectSet_type_into_element (r : Bool) (v : PyVal) (delay : Option Nat)
    (tab dis clr : Bool) :
    (type_into_element r v delay tab dis clr).countP isDirectSet = 0 := by
  unfold type_into_element type_tab
  cases clr <;> cases tab <;> cases delay <;> cases r <;>
    simp [List.countP_append, List.countP_cons, countP_isDirectSet_inputType, isDirectSet]

theorem keystrokeChars_tie (r : Bool) (v : PyVal) (dis clr : Bool) :
    keystrokeChars (type_into_element r v none false dis clr) = (pyStrOrEmpty v).toList := by
  unfold type_into_element
  cases clr <;>
    simp [keystrokeChars_append, keystrokeChars, keyChars] <;>
    exact keystrokeChars_inputType r _ dis

theorem pyStrOrEmpty_of_scalar {v : PyVal} (h : isScalar v = true) :
    pyStrOrEmpty v = pyStr v := by
  cases v <;> simp_all [isScalar, pyStrOrEmpty]

/-- C4: a boolean field — one whose xtype ends in `radiogroup`, or which is
a checkbox or a radio (and is neither a combobox nor a text field, which
the dispatch tests first) — has a scalar value assigned through the direct
set-value remote call, with no simulated keystrokes or typing actions. -/
theorem spec_c4_boolean_field_direct_assignment :
    ∀ (env : FieldEnv) (fq n xt : String) (v : PyVal),
      env.fieldXType = some xt → xt ≠ "" →
      env.isCombobox = false → env.isTextField = false →
      (pyEndsWith xt "radiogroup" || env.isCheckbox || env.isRadio) = true →
      isScalar v = true →
      set_field_value env fq n v = ([FAction.setValueDirectly fq n v], none) ∧
      keystrokeChars (set_field_value env fq n v).1 = [] ∧
      (set_field_value env fq n v).1.countP isTypingAction = 0 := by
  intro env fq n xt v hxt hne hcb htf hbool hs
  have hx : pyTruthyOptStr env.fieldXType = true := by
    simp [hxt, pyTruthyOptStr, hne]
  have hfv : try_get_object_member v "value" v = v :=
    try_get_object_member_of_not_dict (isDict_eq_false_of_isScalar hs) _ _
  have hx2 : pyTruthyOptStr (some xt) = true := by
    simp [pyTruthyOptStr, hne]
  have hmain : set_field_value env fq n v = ([FAction.setValueDirectly fq n v], none) := by
    simp [set_field_value, hx, hx2, hxt, hcb, htf, hbool, hfv, set_field_value_directly]
  refine ⟨hmain, ?_, ?_⟩ <;> rw [hmain] <;> rfl

/-- Witness for C4 at a concrete radiogroup field receiving `true`. -/
theorem spec_c4_witness :
    set_field_value ⟨some "myradiogroup", false, false, false, false, false, true, false⟩
        "form" "flag" (PyVal.vBool true) =
      ([FAction.setValueDirectly "form" "flag" (PyVal.vBool true)], none) := by
  exact (spec_c4_boolean_field_direct_assignment
    ⟨some "myradiogroup", false, false, false, false, false, true, false⟩
    "form" "flag" "myradiogroup" (PyVal.vBool true)
    rfl (by decide) rfl rfl (by decide) rfl).1

/-- C5: a text field receiving a scalar value has the value stringified and
delivered to its input element as keystrokes, one per character of the
stringified value in left-to-right order, with no direct set-value call
anywhere in the operation. -/
theorem spec_c5_text_field_typed :
    ∀ (env : FieldEnv) (fq n : String) (v : PyVal),
      pyTruthyOptStr env.fieldXType = true →
      env.isCombobox = false → env.isTextField = true →
      isScalar v = true →
      (set_field_value env fq n v).2 = none ∧
      keystrokeChars (set_field_value env fq n v).1 = (pyStr v).toList ∧
      (set_field_value env fq n v).1.countP isDirectSet = 0 := by
  intro env fq n v hx hcb htf hs
  have hfv : try_get_object_member v "value" v = v :=
    try_get_object_member_of_not_dict (isDict_eq_false_of_isScalar hs) _ _
  have hmain : set_field_value env fq n v =
      ([FAction.findInput fq n] ++
        type_into_element env.driverRemote v none false false true, none) := by
    simp [set_field_value, hx, hcb, htf, hfv]
  refine ⟨by rw [hmain], ?_, ?_⟩
  · rw [hmain]
    simp only [keystrokeChars_append, keystrokeChars_tie, pyStrOrEmpty_of_scalar hs]
    rfl
  · rw [hmain]
    simp [List.countP_append, countP_isDirectSet_type_into_element, isDirectSet]

/-- Witness for C5: the number 42 typed into a text field delivers the
characters 4 then 2 and performs no direct assignment. -/
theorem spec_c5_witness :
    keystrokeChars (set_field_value ⟨some "textfield", false, false, true, false, false,
        true, false⟩ "form" "age" (PyVal.vNum 42)).1 = "42".toList ∧
    (set_field_value ⟨some "textfield", false, false, true, false, false, true, false⟩
        "form" "age" (PyVal.vNum 42)).1.countP isDirectSet = 0 := by
  have h := spec_c5_text_field_typed
    ⟨some "textfield", false, false, true, false, false, true, false⟩
    "form" "age" (PyVal.vNum 42) rfl rfl rfl rfl
  exact ⟨h.2.1, h.2.2⟩

end Pyseext.FieldM

namespace Pyseext.FieldM

open Pyseext

/-- C1: on a remotely filtered combobox, a dict value spec carrying a
truthy `filterText` member and a dict match payload (its `value` member, or
the whole dict when no `value` member is present) makes `set_field_value`
perform, in order: reset of the load counter of the bound store, simulated typed
entry of the filter text into the input element of the field, a wait for the
store to report loaded, the quiet-period wait for no outstanding Ajax
requests, and the selection protocol (which itself re-waits for the store
before running the select script) against the match payload; when the
selection protocol reports that no record was applied it raises
`RecordNotFoundError` referencing the field name and the match payload,
after the whole counter/quiet-period wait sequence has completed. -/
theorem spec_c1_remote_combobox_filter_then_select :
    ∀ (env : FieldEnv) (fq n : String) (d payload : List (String × PyVal)) (ft : PyVal),
      pyTruthyOptStr env.fieldXType = true →
      env.isCombobox = true → env.isRemoteCombo = true →
      try_get_object_member (PyVal.vDict d) "value" (PyVal.vDict d) = PyVal.vDict payload →
      try_get_object_member (PyVal.vDict d) "filterText" PyVal.vNone = ft →
      pyTruthy ft = true →
      set_field_value env fq n (PyVal.vDict d) =
        ([FAction.resetLoadCount (get_field_component_query fq n), FAction.findInput fq n,
          FAction.clearElement, FAction.moveClick, FAction.sendKeys (pyStrOrEmpty ft),
          FAction.waitStoreLoaded (get_field_component_query fq n), FAction.waitNoAjax 1,
          FAction.waitStoreLoaded (get_field_component_query fq n),
          FAction.selectCombo fq n (PyVal.vDict payload)],
         if env.selectResult then none
         else some (Err.recordNotFound fq n (PyVal.vDict payload))) := by
  intro env fq n d payload ft hx hcb hrc hpayload hft htruthy
  have hdict : isDict (PyVal.vDict payload) = true := rfl
  cases hsel : env.selectResult <;>
    simp [set_field_value, hx, hcb, hrc, hpayload, hft, htruthy, hdict,
      select_combobox_value, type_into_element, inputType, type_tab, hsel]

/-- Witness for C1: the scenario from the spec — filter text `Sto`, match payload
`{name: Stoat, id: 123}` — against a store whose selection protocol finds
no match, ending in `RecordNotFoundError` after the full wait sequence. -/
theorem spec_c1_witness :
    set_field_value ⟨some "combobox", true, true, false, false, false, false, false⟩
        "form" "animal"
        (PyVal.vDict [("filterText", PyVal.vStr "Sto"),
          ("value", PyVal.vDict [("name", PyVal.vStr "Stoat"), ("id", PyVal.vNum 123)])]) =
      ([FAction.resetLoadCount (get_field_component_query "form" "animal"),
        FAction.findInput "form" "animal", FAction.clearElement, FAction.moveClick,
        FAction.sendKeys "Sto",
        FAction.waitStoreLoaded (get_field_component_query "form" "animal"),
        FAction.waitNoAjax 1,
        FAction.waitStoreLoaded (get_field_component_query "form" "animal"),
        FAction.selectCombo "form" "animal"
          (PyVal.vDict [("name", PyVal.vStr "Stoat"), ("id", PyVal.vNum 123)])],
       some (Err.recordNotFound "form" "animal"
         (PyVal.vDict [("name", PyVal.vStr "Stoat"), ("id", PyVal.vNum 123)]))) := by
  have h := spec_c1_remote_combobox_filter_then_select
    ⟨some "combobox", true, true, false, false, false, false, false⟩
    "form" "animal"
    [("filterText", PyVal.vStr "Sto"),
      ("value", PyVal.vDict [("name", PyVal.vStr "Stoat"), ("id", PyVal.vNum 123)])]
    [("name", PyVal.vStr "Stoat"), ("id", PyVal.vNum 123)]
    (PyVal.vStr "Sto") rfl rfl rfl rfl rfl rfl
  simpa using h

/-- Counterexample to C3 as stated: `{value: 42}` is a dict value spec for
a remotely filtered combobox with no `filterText` member, yet
`set_field_value` raises nothing — the resolved field value 42 is not a
dict, so the scalar path runs: the load counter is reset and the value is
typed as filter text. -/
theorem spec_c3_counterexample :
    set_field_value ⟨some "combobox", true, true, false, false, false, true, true⟩
        "form" "animal" (PyVal.vDict [("value", PyVal.vNum 42)]) =
      ([FAction.resetLoadCount (get_field_component_query "form" "animal"),
        FAction.findInput "form" "animal", FAction.clearElement, FAction.moveClick,
        FAction.sendKeys "42",
        FAction.waitStoreLoaded (get_field_component_query "form" "animal"),
        FAction.waitNoAjax 1, FAction.sendTab],
       none) := by
  rfl

/-- C3 as amended: on a remotely filtered combobox, a dict value spec whose
resolved match payload (its `value` member, or the whole dict when no
`value` member is present) is itself a dict and whose `filterText` member
is absent or falsy makes `set_field_value` raise `InvalidArgumentError`
naming the missing `filterText` member, before resetting the load counter,
typing, or performing any other mutation of the field or store. -/
theorem spec_c3_missing_filter_text :
    ∀ (env : FieldEnv) (fq n : String) (d : List (String × PyVal)),
      pyTruthyOptStr env.fieldXType = true →
      env.isCombobox = true → env.isRemoteCombo = true →
      isDict (try_get_object_member (PyVal.vDict d) "value" (PyVal.vDict d)) = true →
      pyTruthy (try_get_object_member (PyVal.vDict d) "filterText" PyVal.vNone) = false →
      set_field_value env fq n (PyVal.vDict d) =
        ([], some (Err.argumentMissing "value" "filterText")) := by
  intro env fq n d hx hcb hrc hdict hft
  simp [set_field_value, hx, hcb, hrc, hdict, hft]

/-- Witness for the amended C3: a dict match payload with no filter text
raises before anything is done. -/
theorem spec_c3_witness :
    set_field_value ⟨some "combobox", true, true, false, false, false, true, false⟩
        "form" "animal" (PyVal.vDict [("value", PyVal.vDict [("name", PyVal.vStr "Stoat")])]) =
      ([], some (Err.argumentMissing "value" "filterText")) := by
  exact spec_c3_missing_filter_text
    ⟨some "combobox", true, true, false, false, false, true, false⟩
    "form" "animal" [("value", PyVal.vDict [("name", PyVal.vStr "Stoat")])]
    rfl rfl rfl rfl rfl

end Pyseext.FieldM

namespace Pyseext.FieldM

open Pyseext

theorem sfv_snd_combobox (env : FieldEnv) (fq n : String) (v : PyVal)
    (hx : pyTruthyOptStr env.fieldXType = true) (hcb : env.isCombobox = true) :
    (set_field_value env fq n v).2 = none ∨
    (set_field_value env fq n v).2 =
      some (Err.recordNotFound fq n (try_get_object_member v "value" v)) ∨
    (set_field_value env fq n v).2 = some (Err.argumentMissing "value" "filterText") := by
  cases hrc : env.isRemoteCombo <;>
    cases hd : isDict (try_get_object_member v "value" v) <;>
    cases hft : pyTruthy (try_get_object_member v "filterText" PyVal.vNone) <;>
    cases hsel : env.selectResult <;>
    simp [set_field_value, hx, hcb, hrc, hd, hft, hsel, select_combobox_value]

theorem sfv_snd_other (env : FieldEnv) (fq n s : String) (v : PyVal)
    (hsome : env.fieldXType = some s) (hxs : pyTruthyOptStr (some s) = true)
    (hcb : env.isCombobox = false) (htf : env.isTextField = false) :
    (set_field_value env fq n v).2 =
      if pyEndsWith s "radiogroup" || env.isCheckbox || env.isRadio then none
      else some (Err.unsupportedXType fq n s) := by
  cases hdisj : (pyEndsWith s "radiogroup" || env.isCheckbox || env.isRadio) <;>
    simp [set_field_value, hsome, hxs, hcb, htf, hdisj, set_field_value_directly]

/-- C2: `set_field_value` raises `FieldNotFoundError` exactly when the
field-kind lookup returns a falsy result, and `UnsupportedFieldKindError`
exactly when the field is found but its kind matches none of the defined
assignment paths (not a combobox, not a text field, and neither a
radiogroup-suffixed xtype nor a checkbox nor a radio); neither error is
raised under any other condition. -/
theorem spec_c2_not_found_and_unsupported :
    ∀ (env : FieldEnv) (fq n : String) (v : PyVal),
      ((set_field_value env fq n v).2 = some (Err.fieldNotFound fq n) ↔
        pyTruthyOptStr env.fieldXType = false) ∧
      (∀ xt : String,
        (set_field_value env fq n v).2 = some (Err.unsupportedXType fq n xt) ↔
          (env.fieldXType = some xt ∧ pyTruthyOptStr env.fieldXType = true ∧
            env.isCombobox = false ∧ env.isTextField = false ∧
            pyEndsWith xt "radiogroup" = false ∧ env.isCheckbox = false ∧
            env.isRadio = false)) := by
  intro env fq n v
  cases hx : pyTruthyOptStr env.fieldXType
  · constructor
    · simp [set_field_value, hx]
    · intro xt
      simp [set_field_value, hx]
  · obtain ⟨s, hsome⟩ : ∃ s, env.fieldXType = some s := by
      cases henv : env.fieldXType
      · rw [henv] at hx
        simp [pyTruthyOptStr] at hx
      · exact ⟨_, rfl⟩
    have hxs : pyTruthyOptStr (some s) = true := by
      rw [← hsome]
      exact hx
    constructor
    · -- once the xtype lookup is truthy, FieldNotFoundError is never raised
      simp only [Bool.true_eq_false, iff_false]
      cases hcb : env.isCombobox
      · cases htf : env.isTextField
        · rw [sfv_snd_other env fq n s v hsome hxs hcb htf]
          cases hdisj : (pyEndsWith s "radiogroup" || env.isCheckbox || env.isRadio) <;>
            simp [hdisj]
        · simp [set_field_value, hx, hcb, htf]
      · rcases sfv_snd_combobox env fq n v hx hcb with h | h | h <;> rw [h] <;> simp
    · intro xt
      cases hcb : env.isCombobox
      · cases htf : env.isTextField
        · rw [sfv_snd_other env fq n s v hsome hxs hcb htf]
          cases hdisj : (pyEndsWith s "radiogroup" || env.isCheckbox || env.isRadio)
          · have hparts := hdisj
            simp only [Bool.or_eq_false_iff] at hparts
            obtain ⟨⟨hrg, hck⟩, hrd⟩ := hparts
            rw [if_neg (by simp)]
            constructor
            · intro h
              rw [Option.some_inj] at h
              injection h with h1 h2 h3
              subst h3
              exact ⟨hsome, rfl, rfl, rfl, hrg, hck, hrd⟩
            · rintro ⟨h1, -, -, -, -, -, -⟩
              rw [hsome, Option.some_inj] at h1
              subst h1
              rfl
          · rw [if_pos rfl]
            apply iff_of_false (by simp)
            rintro ⟨h1, -, -, -, h5, h6, h7⟩
            rw [hsome, Option.some_inj] at h1
            subst h1
            rw [h5, h6, h7] at hdisj
            simp at hdisj
        · have hnone : (set_field_value env fq n v).2 = none := by
            simp [set_field_value, hx, hcb, htf]
          rw [hnone]
          simp [htf]
      · rcases sfv_snd_combobox env fq n v hx hcb with h | h | h <;> rw [h] <;>
          simp [hcb]

/-- Witness for C2: a descriptor that resolves to no component raises
`FieldNotFoundError`, and an unhandled kind raises
`UnsupportedFieldKindError`. -/
theorem spec_c2_witness :
    (set_field_value ⟨none, false, false, false, false, false, true, false⟩
        "form" "x" (PyVal.vStr "v")).2 = some (Err.fieldNotFound "form" "x") ∧
    (set_field_value ⟨some "hiddenfield", false, false, false, false, false, true, false⟩
        "form" "x" (PyVal.vStr "v")).2 =
      some (Err.unsupportedXType "form" "x" "hiddenfield") := by
  constructor
  · exact ((spec_c2_not_found_and_unsupported
      ⟨none, false, false, false, false, false, true, false⟩ "form" "x"
      (PyVal.vStr "v")).1).mpr rfl
  · exact ((spec_c2_not_found_and_unsupported
      ⟨some "hiddenfield", false, false, false, false, false, true, false⟩ "form" "x"
      (PyVal.vStr "v")).2 "hiddenfield").mpr ⟨rfl, rfl, rfl, rfl, by decide, rfl, rfl⟩

end Pyseext.FieldM
